import Mathlib

/-!
Verification development for the system benchmark harness
(system_benchmark.py): a shallow embedding in Lean 4 of the pure
computational core of the harness (unit formatting, buffer sizing,
throughput arithmetic, worker-count selection, CLI size parsing,
network-result shape, and the scaled hardware-configuration model),
together with theorems settling the specified properties.

Modelling conventions:
- Python floats are modelled as exact rationals; machine integers as Int/Nat.
- Wall-clock measurements are inputs to the embedded functions (the code
  only ever combines them arithmetically).
- The Python builtins int(), round() and min() are modelled by pyInt
  (truncation toward zero), pyRound (round half to even) and pymin.
- Python dictionaries, where aliasing matters, are modelled by an explicit
  heap of association lists (see the Heap section below).
-/

/-- Python builtin int() applied to a float: truncation toward zero. -/
def pyInt (q : ℚ) : ℤ :=
  if 0 ≤ q then ⌊q⌋ else ⌈q⌉

/-- Python builtin round() to the nearest integer, ties to even
(banker rounding), as used on floats in Python 3. -/
def pyRound (q : ℚ) : ℤ :=
  let f := ⌊q⌋
  let r := q - (f : ℚ)
  if r < 1 / 2 then f
  else if 1 / 2 < r then f + 1
  else if f % 2 = 0 then f else f + 1

/-- Python builtin min over a nonempty sequence, given as head and tail. -/
def pymin (x : ℚ) (xs : List ℚ) : ℚ :=
  xs.foldl min x

/-- The clamp helper defined inside main():
clamp(val, lo, hi) = max(lo, min(hi, val)). -/
def clamp (val lo hi : ℚ) : ℚ :=
  max lo (min hi val)

/-! ## Unit Formatter: format_bytes_per_sec -/

/-- The unit ladder of format_bytes_per_sec. -/
def units : List String :=
  ["B/s", "KB/s", "MB/s", "GB/s", "TB/s"]

/-- The while loop of format_bytes_per_sec:
while bps >= 1024 and i < len(units) - 1: bps /= 1024; i += 1.
len(units) - 1 = 4. Returns the final (bps, i). -/
def format_loop (bps : ℚ) (i : ℕ) : ℚ × ℕ :=
  if h : 1024 ≤ bps ∧ i < 4 then format_loop (bps / 1024) (i + 1) else (bps, i)
termination_by 4 - i
decreasing_by omega

/-- The Python format f-string with .2f: rounds half to even at two
decimals and renders with exactly two digits after the point. -/
def fmtTwoDec (q : ℚ) : String :=
  let n := pyRound (q * 100)
  let sign := if n < 0 then "-" else ""
  let m := n.natAbs
  sign ++ toString (m / 100) ++ "." ++ (if m % 100 < 10 then "0" else "") ++ toString (m % 100)

/-- format_bytes_per_sec(bps): divide down through the unit ladder and
render to two decimals followed by the chosen unit. -/
def format_bytes_per_sec (bps : ℚ) : String :=
  let p := format_loop bps 0
  fmtTwoDec p.1 ++ " " ++ units.getD p.2 ""

/-! ## CPU Probe: worker-count selection in bench_cpu -/

/-- Python `x or 1` on an optional count: None and 0 are falsy. -/
def orOne (o : Option ℕ) : ℕ :=
  match o with
  | some (Nat.succ n) => Nat.succ n
  | _ => 1

/-- The worker-process count used by bench_cpu:
if max_procs is None it is max(1, min(cpu_count or 1, 8)), computed from
the logical core count (psutil.cpu_count or os.cpu_count, None when
unknown); an explicitly supplied max_procs is used as given. -/
def bench_cpu_procs (max_procs : Option ℕ) (logical_cores : Option ℕ) : ℕ :=
  match max_procs with
  | some m => m
  | none => max 1 (min (orOne logical_cores) 8)

/-! ## Memory Probe: throughput arithmetic of the two paths -/

/-- bench_ram_numpy timing reduction: copy_time = min(copy_times). -/
def numpy_min_time (t : ℚ) (ts : List ℚ) : ℚ :=
  pymin t ts

/-- bench_ram_numpy throughput: buffer_size_bytes / copy_time
(and likewise for the fill and read phases); the divisor is the raw
minimum observed time. -/
def numpy_throughput (buffer_size : ℚ) (t : ℚ) (ts : List ℚ) : ℚ :=
  buffer_size / numpy_min_time t ts

/-- bench_ram_fallback timing reduction: max(min(times), 1e-9). -/
def fallback_min_time (t : ℚ) (ts : List ℚ) : ℚ :=
  max (pymin t ts) (1 / 1000000000)

/-- bench_ram_fallback throughput:
buffer_size_bytes / max(copy_time, 1e-9) (likewise write and read). -/
def fallback_throughput (buffer_size : ℚ) (t : ℚ) (ts : List ℚ) : ℚ :=
  buffer_size / fallback_min_time t ts

/-- The (copy, write, read) throughput triple of bench_ram_numpy, given
the buffer size and the observed per-iteration elapsed times of each
phase (head plus tail, so each list is nonempty as in the code, which
runs at least one iteration). -/
def bench_ram_numpy_result (buffer_size : ℚ)
    (ct : ℚ) (cts : List ℚ) (ft : ℚ) (fts : List ℚ) (rt : ℚ) (rts : List ℚ) :
    ℚ × ℚ × ℚ :=
  (numpy_throughput buffer_size ct cts,
   numpy_throughput buffer_size ft fts,
   numpy_throughput buffer_size rt rts)

/-- The (copy, write, read) throughput triple of bench_ram_fallback. -/
def bench_ram_fallback_result (buffer_size : ℚ)
    (ct : ℚ) (cts : List ℚ) (wt : ℚ) (wts : List ℚ) (rt : ℚ) (rts : List ℚ) :
    ℚ × ℚ × ℚ :=
  (fallback_throughput buffer_size ct cts,
   fallback_throughput buffer_size wt wts,
   fallback_throughput buffer_size rt rts)

/-! ## Memory Probe: buffer sizing in bench_ram -/

/-- The buffer size chosen by bench_ram(target_bytes):
when target_bytes is None, cap = 256 MiB,
ten_percent = int((total_mem or cap) * 0.10) and the result is
max(64 MiB, min(cap, ten_percent)); an explicit target is used as given.
total_mem is None when psutil is absent or the query failed. -/
def bench_ram_target (total_mem : Option ℤ) (target_bytes : Option ℤ) : ℤ :=
  match target_bytes with
  | some t => t
  | none =>
    let cap : ℤ := 256 * 1024 * 1024
    let tm : ℤ :=
      match total_mem with
      | none => cap
      | some v => if v = 0 then cap else v
    let ten_percent : ℤ := pyInt ((tm : ℚ) * (10 / 100))
    max (64 * 1024 * 1024) (min cap ten_percent)

/-! ## Network Probe: bench_network -/

/-- The dictionary shape returned by bench_network: each field is present
(some) or absent (none) in the returned dict. -/
structure NetworkResult where
  download_bits_per_sec : Option ℚ
  upload_bits_per_sec : Option ℚ
  ping_ms : Option ℚ
  download_human : Option String
  upload_human : Option String
  error : Option String
  deriving DecidableEq, Repr

/-- Outcome of the external speed-test exchange: success with the three
measured figures, or an exception carrying a message. -/
inductive SpeedtestOutcome where
  | success (download_bps upload_bps ping_ms : ℚ)
  | failure (msg : String)
  deriving DecidableEq, Repr

/-- bench_network: None models an absent speedtest module (safe_import
returned None); otherwise the try block either succeeds with the three
measurements or raises, in which case the dict is exactly
the error string. -/
def bench_network (speedtest : Option SpeedtestOutcome) : NetworkResult :=
  match speedtest with
  | none =>
    { download_bits_per_sec := none, upload_bits_per_sec := none,
      ping_ms := none, download_human := none, upload_human := none,
      error := some "speedtest module not available" }
  | some (SpeedtestOutcome.success d u p) =>
    { download_bits_per_sec := some d, upload_bits_per_sec := some u,
      ping_ms := some p,
      download_human := some (format_bytes_per_sec (d / 8)),
      upload_human := some (format_bytes_per_sec (u / 8)),
      error := none }
  | some (SpeedtestOutcome.failure e) =>
    { download_bits_per_sec := none, upload_bits_per_sec := none,
      ping_ms := none, download_human := none, upload_human := none,
      error := some e }

/-! ## Report Aggregator: memory_x_multiple -/

/-- compute_memory_x_multiple(copy_bps, baseline_gbps=1.0):
(copy_bps / 1024**3) / baseline_gbps. -/
def compute_memory_x_multiple (copy_bps : ℚ) (baseline_gbps : ℚ) : ℚ :=
  (copy_bps / 1024 ^ 3) / baseline_gbps

/-- The memory_x_multiple field assembled by main():
compute_memory_x_multiple(ram.copy_bytes_per_sec) when the ram result has
a copy_bytes_per_sec key, else None. -/
def report_memory_x_multiple (ram_copy_bytes_per_sec : Option ℚ) : Option ℚ :=
  match ram_copy_bytes_per_sec with
  | some c => some (compute_memory_x_multiple c 1)
  | none => none

/-! ## CLI parsing: the --ram-bytes override in main() -/

/-- Numeric value of a list of decimal digit characters. -/
def digitsToNat (cs : List Char) : ℕ :=
  cs.foldl (fun a c => a * 10 + (c.toNat - 48)) 0

/-- Python str.strip() with no argument: remove whitespace from both
ends of the character sequence. -/
def pyStrip (cs : List Char) : List Char :=
  ((cs.dropWhile Char.isWhitespace).reverse.dropWhile Char.isWhitespace).reverse

/-- Python str.upper() on the ASCII size strings the CLI receives. -/
def pyUpper (cs : List Char) : List Char :=
  cs.map Char.toUpper

/-- str.endswith for a single-character suffix. -/
def endsWithChar (cs : List Char) (c : Char) : Bool :=
  match cs.getLast? with
  | some c2 => c2 = c
  | none => false

/-- Python builtin float() on the plain decimal literals the harness can
receive: an optional sign, then digits with at most one decimal point and
at least one digit (exotic float syntax such as exponents, infinities or
embedded underscores is out of scope of the harness contract and modelled
as a parse failure). -/
def pyFloatOfChars (cs0 : List Char) : Option ℚ :=
  let sign : ℚ × List Char :=
    match cs0 with
    | '+' :: r => (1, r)
    | '-' :: r => (-1, r)
    | r => (1, r)
  let ip := sign.2.takeWhile Char.isDigit
  let rest := sign.2.dropWhile Char.isDigit
  match rest with
  | [] =>
    if ip.isEmpty then none
    else some (sign.1 * digitsToNat ip)
  | '.' :: fp =>
    if fp.all Char.isDigit ∧ ¬ (ip.isEmpty ∧ fp.isEmpty) then
      some (sign.1 * ((digitsToNat ip : ℚ) + (digitsToNat fp : ℚ) / 10 ^ fp.length))
    else none
  | _ => none

/-- Python builtin int() on a string: optional sign and a nonempty digit
run (underscore digit grouping is modelled as a parse failure). -/
def pyIntOfString (s : String) : Option ℤ :=
  let cs0 := s.toList
  let sign : ℤ × List Char :=
    match cs0 with
    | '+' :: r => (1, r)
    | '-' :: r => (-1, r)
    | r => (1, r)
  if sign.2.isEmpty ∨ ¬ sign.2.all Char.isDigit then none
  else some (sign.1 * digitsToNat sign.2)

/-- The --ram-bytes handling in main(): ram_bytes_override starts as None;
if args.ram_bytes is truthy (given and non-empty) the string is stripped
and upper-cased, a G/M/K suffix selects the multiplier, and any parse
failure prints a warning to stderr and leaves the override None.
Returns (ram_bytes_override, warned). -/
def parse_ram_bytes (ram_bytes : Option String) : Option ℤ × Bool :=
  match ram_bytes with
  | none => (none, false)
  | some rb =>
    if rb = "" then (none, false)
    else
      let s := pyUpper (pyStrip rb.toList)
      if endsWithChar s 'G' then
        match pyFloatOfChars s.dropLast with
        | some q => (some (pyInt (q * 1024 ^ 3)), false)
        | none => (none, true)
      else if endsWithChar s 'M' then
        match pyFloatOfChars s.dropLast with
        | some q => (some (pyInt (q * 1024 ^ 2)), false)
        | none => (none, true)
      else if endsWithChar s 'K' then
        match pyFloatOfChars s.dropLast with
        | some q => (some (pyInt (q * 1024)), false)
        | none => (none, true)
      else
        match pyIntOfString (String.mk s) with
        | some n => (some n, false)
        | none => (none, true)

/-! ## Scaled Configuration Model: Python dicts as a heap

scaled_config mutates a dict object freshly copied from its base argument
(sc = dict(base)). To make the copy-versus-alias distinction provable we
embed Python dict objects in an explicit heap: addresses are naturals,
a heap maps every address to an association-list dictionary, and
allocation hands out heap.nextAddr. -/

/-- Values stored in the hardware-profile dictionaries. -/
inductive PyVal where
  | vint (n : ℤ)
  | vnum (q : ℚ)
  | vstr (s : String)
  | vnotes (hardware_scale_down performance_loss : ℚ)
  deriving DecidableEq, Repr

/-- A Python dict as an association list (insertion ordered). -/
abbrev Dict := List (String × PyVal)

/-- Key lookup, d[k]. -/
def dictLookup (d : Dict) (k : String) : Option PyVal :=
  match d with
  | [] => none
  | (k2, v) :: t => if k2 = k then some v else dictLookup t k

/-- Python dict assignment d[k] = v: replace the value in place when the
key is present (keys are unique, insertion order kept), append a new
entry otherwise. -/
def dictSet (d : Dict) (k : String) (v : PyVal) : Dict :=
  match d with
  | [] => [(k, v)]
  | (k2, v2) :: t => if k2 = k then (k, v) :: t else (k2, v2) :: dictSet t k v

/-- The heap of dict objects. -/
structure Heap where
  nextAddr : ℕ
  store : ℕ → Dict

/-- Allocate a fresh dict object (dict(base) copies the contents). -/
def halloc (h : Heap) (d : Dict) : Heap × ℕ :=
  (⟨h.nextAddr + 1, fun b => if b = h.nextAddr then d else h.store b⟩, h.nextAddr)

/-- In-place update of one key of the dict object at address a. -/
def hset (h : Heap) (a : ℕ) (k : String) (v : PyVal) : Heap :=
  ⟨h.nextAddr, fun b => if b = a then dictSet (h.store a) k v else h.store b⟩

/-- Read one key of the dict object at address a. -/
def hread (h : Heap) (a : ℕ) (k : String) : Option PyVal :=
  dictLookup (h.store a) k

/-- Numeric value of a dict entry as used in arithmetic (base[k] * ...).
The profiles the code builds only hold numbers at the scaled keys. -/
def asQ (v : Option PyVal) : ℚ :=
  match v with
  | some (PyVal.vint n) => (n : ℚ)
  | some (PyVal.vnum q) => q
  | _ => 0

/-- Read base[k] as a number from the heap. -/
def readQ (h : Heap) (a : ℕ) (k : String) : ℚ :=
  asQ (hread h a k)

/-- scaled_config(base, hw_scale, perf_scale): sc = dict(base) allocates a
copy, then each sc[k] = ... assignment mutates the copy, reading the
operand from the base object; returns the heap after the mutations and the
address of the new dict. Discrete counts go through
max(1, int(round(base[k] * (1.0 - hw_scale)))), capacities and bandwidths
scale by (1.0 - hw_scale), performance tiers by (1.0 - perf_scale), the
port is copied verbatim and the two scale factors are recorded in notes. -/
def scaled_config (h0 : Heap) (base : ℕ) (hw_scale perf_scale : ℚ) : Heap × ℕ :=
  let p := halloc h0 (h0.store base)
  let sc := p.2
  let h1 := p.1
  let h2 := hset h1 sc "gpus"
    (PyVal.vint (max 1 (pyRound (readQ h1 base "gpus" * (1 - hw_scale)))))
  let h3 := hset h2 sc "cpus"
    (PyVal.vint (max 1 (pyRound (readQ h2 base "cpus" * (1 - hw_scale)))))
  let h4 := hset h3 sc "cpu_cores"
    (PyVal.vint (max 1 (pyRound (readQ h3 base "cpu_cores" * (1 - hw_scale)))))
  let h5 := hset h4 sc "fast_memory_tb"
    (PyVal.vnum (readQ h4 base "fast_memory_tb" * (1 - hw_scale)))
  let h6 := hset h5 sc "gpu_memory_tb"
    (PyVal.vnum (readQ h5 base "gpu_memory_tb" * (1 - hw_scale)))
  let h7 := hset h6 sc "cpu_memory_tb"
    (PyVal.vnum (readQ h6 base "cpu_memory_tb" * (1 - hw_scale)))
  let h8 := hset h7 sc "dual_link_bandwidth_tbps"
    (PyVal.vnum (readQ h7 base "dual_link_bandwidth_tbps" * (1 - hw_scale)))
  let h9 := hset h8 sc "gpu_mem_bandwidth_tbps"
    (PyVal.vnum (readQ h8 base "gpu_mem_bandwidth_tbps" * (1 - hw_scale)))
  let h10 := hset h9 sc "cpu_mem_bandwidth_tbps"
    (PyVal.vnum (readQ h9 base "cpu_mem_bandwidth_tbps" * (1 - hw_scale)))
  let h11 := hset h10 sc "fp4_tensor_pf"
    (PyVal.vnum (readQ h10 base "fp4_tensor_pf" * (1 - perf_scale)))
  let h12 := hset h11 sc "fp8_pf"
    (PyVal.vnum (readQ h11 base "fp8_pf" * (1 - perf_scale)))
  let h13 := hset h12 sc "int8_pf"
    (PyVal.vnum (readQ h12 base "int8_pf" * (1 - perf_scale)))
  let h14 := hset h13 sc "fp16_pf"
    (PyVal.vnum (readQ h13 base "fp16_pf" * (1 - perf_scale)))
  let h15 := hset h14 sc "tf32_pf"
    (PyVal.vnum (readQ h14 base "tf32_pf" * (1 - perf_scale)))
  let h16 := hset h15 sc "fp32_pf"
    (PyVal.vnum (readQ h15 base "fp32_pf" * (1 - perf_scale)))
  let h17 := hset h16 sc "fp64_tf"
    (PyVal.vnum (readQ h16 base "fp64_tf" * (1 - perf_scale)))
  let h18 := hset h17 sc "port"
    ((hread h17 base "port").getD (PyVal.vnum 0))
  let h19 := hset h18 sc "notes" (PyVal.vnotes hw_scale perf_scale)
  (h19, sc)

/-- The theoretical_baseline dict literal of main(). -/
def theoretical_baseline : Dict :=
  [("gpus", PyVal.vint 72),
   ("cpus", PyVal.vint 36),
   ("dual_link_bandwidth_tbps", PyVal.vnum 150),
   ("fast_memory_tb", PyVal.vnum 50),
   ("gpu_memory_tb", PyVal.vnum 25),
   ("gpu_mem_bandwidth_tbps", PyVal.vnum 600),
   ("cpu_memory_tb", PyVal.vnum 20),
   ("cpu_mem_bandwidth_tbps", PyVal.vnum (159 / 10)),
   ("cpu_cores", PyVal.vint 3500),
   ("fp4_tensor_pf", PyVal.vnum 1100),
   ("fp8_pf", PyVal.vnum 720),
   ("int8_pf", PyVal.vnum 23),
   ("fp16_pf", PyVal.vnum 360),
   ("tf32_pf", PyVal.vnum 180),
   ("fp32_pf", PyVal.vnum 6),
   ("fp64_tf", PyVal.vnum (1 / 10)),
   ("port", PyVal.vstr "PCIe 7.0")]

/-- The heap of main() just before scaled_config is called: the
theoretical_baseline dict object lives at address 0 and address 1 is the
next free allocation slot. -/
def mainHeap : Heap :=
  ⟨1, fun _ => theoretical_baseline⟩

/-- The scale factors actually passed to scaled_config by main():
scale_down = clamp(args.scale_down, 0.67, 0.71). -/
def main_scale_down (x : ℚ) : ℚ :=
  clamp x (67 / 100) (71 / 100)

/-- perf_retain = clamp(args.perf_retain, 0.25, 0.30). -/
def main_perf_retain (x : ℚ) : ℚ :=
  clamp x (25 / 100) (30 / 100)

/-- main() computes scaled = scaled_config(theoretical_baseline,
scale_down, perf_retain) with both factors clamped first. -/
def main_scaled (scale_down perf_retain : ℚ) : Heap × ℕ :=
  scaled_config mainHeap 0 (main_scale_down scale_down) (main_perf_retain perf_retain)

/-! ## Dictionary and heap lemmas -/

lemma dictLookup_dictSet_self (d : Dict) (k : String) (v : PyVal) :
    dictLookup (dictSet d k v) k = some v := by
  induction d with
  | nil => simp [dictSet, dictLookup]
  | cons hd tl ih =>
    obtain ⟨k2, v2⟩ := hd
    by_cases hk : k2 = k
    · simp [dictSet, dictLookup, hk]
    · simp only [dictSet, if_neg hk, dictLookup, ih, if_neg hk]

lemma dictLookup_dictSet_ne (d : Dict) (k1 k2 : String) (v : PyVal)
    (h : k1 ≠ k2) :
    dictLookup (dictSet d k2 v) k1 = dictLookup d k1 := by
  induction d with
  | nil =>
    have h2 : ¬ k2 = k1 := fun he => h he.symm
    simp [dictSet, dictLookup, h2]
  | cons hd tl ih =>
    obtain ⟨kh, vh⟩ := hd
    by_cases hk : kh = k2
    · have h2 : ¬ k2 = k1 := fun he => h he.symm
      have h3 : ¬ kh = k1 := hk ▸ h2
      simp only [dictSet, if_pos hk, dictLookup, if_neg h2, if_neg h3]
    · simp only [dictSet, if_neg hk, dictLookup]
      by_cases hk1 : kh = k1
      · simp [hk1]
      · simp only [if_neg hk1, ih]

lemma store_hset_ne (h : Heap) (a b : ℕ) (k : String) (v : PyVal)
    (hb : b ≠ a) : (hset h a k v).store b = h.store b := by
  simp [hset, hb]

lemma store_hset_self (h : Heap) (a : ℕ) (k : String) (v : PyVal) :
    (hset h a k v).store a = dictSet (h.store a) k v := by
  simp [hset]

lemma store_halloc_ne (h : Heap) (d : Dict) (b : ℕ)
    (hb : b ≠ h.nextAddr) : ((halloc h d).1).store b = h.store b := by
  simp [halloc, hb]

/-! ## Claim theorems -/

/-- C4: both scale inputs are clamped to the nearest bound of their
documented ranges ([0.67, 0.71] for the hardware scale, [0.25, 0.30] for
the performance scale) before being used in the scaling formula; an
in-range value passes through unchanged, and hardwareScale = 0.9 is used
as 0.71. -/
theorem c4_scale_inputs_clamped (x y z u v w sd pr : ℚ)
    (hx : x < 67 / 100) (hy : 71 / 100 < y)
    (hz1 : 67 / 100 ≤ z) (hz2 : z ≤ 71 / 100)
    (hu : u < 25 / 100) (hv : 30 / 100 < v)
    (hw1 : 25 / 100 ≤ w) (hw2 : w ≤ 30 / 100) :
    main_scale_down x = 67 / 100 ∧
    main_scale_down y = 71 / 100 ∧
    main_scale_down z = z ∧
    main_perf_retain u = 25 / 100 ∧
    main_perf_retain v = 30 / 100 ∧
    main_perf_retain w = w ∧
    main_scale_down (9 / 10) = 71 / 100 ∧
    main_scaled sd pr =
      scaled_config mainHeap 0 (main_scale_down sd) (main_perf_retain pr) := by
  unfold main_scale_down main_perf_retain main_scaled clamp
  refine ⟨?_, ?_, ?_, ?_, ?_, ?_, ?_, rfl⟩
  · rw [min_eq_right (le_of_lt (lt_of_lt_of_le hx (by norm_num))),
      max_eq_left (le_of_lt hx)]
  · rw [min_eq_left (le_of_lt hy), max_eq_right (by norm_num)]
  · rw [min_eq_right hz2, max_eq_right hz1]
  · rw [min_eq_right (le_of_lt (lt_of_lt_of_le hu (by norm_num))),
      max_eq_left (le_of_lt hu)]
  · rw [min_eq_left (le_of_lt hv), max_eq_right (by norm_num)]
  · rw [min_eq_right hw2, max_eq_right hw1]
  · norm_num

/-- C4 witness: the clamp theorem applied at concrete inputs, in
particular hardwareScale 0.9 clamps to 0.71. -/
theorem c4_witness :
    (1 / 2 : ℚ) < 67 / 100 ∧ (71 / 100 : ℚ) < 9 / 10 ∧
    (67 / 100 : ℚ) ≤ 69 / 100 ∧ (69 / 100 : ℚ) ≤ 71 / 100 ∧
    (1 / 5 : ℚ) < 25 / 100 ∧ (30 / 100 : ℚ) < 4 / 10 ∧
    (25 / 100 : ℚ) ≤ 27 / 100 ∧ (27 / 100 : ℚ) ≤ 30 / 100 ∧
    (main_scale_down (1 / 2) = 67 / 100 ∧
     main_scale_down (9 / 10) = 71 / 100 ∧
     main_scale_down (69 / 100) = 69 / 100 ∧
     main_perf_retain (1 / 5) = 25 / 100 ∧
     main_perf_retain (4 / 10) = 30 / 100 ∧
     main_perf_retain (27 / 100) = 27 / 100 ∧
     main_scale_down (9 / 10) = 71 / 100 ∧
     main_scaled (9 / 10) (1 / 5) =
       scaled_config mainHeap 0 (main_scale_down (9 / 10)) (main_perf_retain (1 / 5))) :=
  ⟨by norm_num, by norm_num, by norm_num, by norm_num, by norm_num, by norm_num,
   by norm_num, by norm_num,
   c4_scale_inputs_clamped (1 / 2) (9 / 10) (69 / 100) (1 / 5) (4 / 10) (27 / 100)
     (9 / 10) (1 / 5) (by norm_num) (by norm_num) (by norm_num) (by norm_num)
     (by norm_num) (by norm_num) (by norm_num) (by norm_num)⟩

/-- C5 counterexample: bench_cpu called with an explicitly supplied worker
count uses it verbatim; with max_procs = 20 on a 4-core machine the
worker count is 20, which exceeds both the hard cap 8 and the core count,
so the claimed bound does not hold for explicitly supplied counts. -/
theorem c5_counterexample :
    bench_cpu_procs (some 20) (some 4) = 20 ∧
    ¬ (bench_cpu_procs (some 20) (some 4) ≤ 8 ∧
       bench_cpu_procs (some 20) (some 4) ≤ 4) := by
  decide

/-- C5 (amended): when bench_cpu computes the worker count itself
(max_procs is None), the count is at least 1, at most the hard cap 8, and
at most the logical core count when that is known and positive; when the
core count is unknown the default is 1. An explicitly supplied max_procs
is used verbatim, without any clamping. -/
theorem c5_worker_count (cores m : ℕ) (hc : 1 ≤ cores) :
    1 ≤ bench_cpu_procs none (some cores) ∧
    bench_cpu_procs none (some cores) ≤ 8 ∧
    bench_cpu_procs none (some cores) ≤ cores ∧
    bench_cpu_procs none none = 1 ∧
    bench_cpu_procs (some m) (some cores) = m := by
  obtain ⟨n, rfl⟩ : ∃ n, cores = n + 1 :=
    ⟨cores - 1, (Nat.succ_pred_eq_of_pos hc).symm⟩
  refine ⟨?_, ?_, ?_, rfl, rfl⟩
  · simp [bench_cpu_procs]
  · simp only [bench_cpu_procs, orOne]
    omega
  · simp only [bench_cpu_procs, orOne]
    omega

/-- C5 witness: the amended worker-count bounds at 4 cores and an
explicit count of 3. -/
theorem c5_witness :
    1 ≤ 4 ∧
    (1 ≤ bench_cpu_procs none (some 4) ∧
     bench_cpu_procs none (some 4) ≤ 8 ∧
     bench_cpu_procs none (some 4) ≤ 4 ∧
     bench_cpu_procs none none = 1 ∧
     bench_cpu_procs (some 3) (some 4) = 3) :=
  ⟨by decide, c5_worker_count 4 3 (by decide)⟩

/-- C6: with the speedtest module unavailable bench_network returns
exactly the dict containing the single error entry, and every
NetworkResult either carries all three numeric measurements and no error,
or carries an error and no numeric fields. -/
theorem c6_network_result_shape (st : Option SpeedtestOutcome) :
    bench_network none =
      { download_bits_per_sec := none, upload_bits_per_sec := none,
        ping_ms := none, download_human := none, upload_human := none,
        error := some "speedtest module not available" } ∧
    (((bench_network st).download_bits_per_sec.isSome = true ∧
      (bench_network st).upload_bits_per_sec.isSome = true ∧
      (bench_network st).ping_ms.isSome = true ∧
      (bench_network st).error = none) ∨
     ((bench_network st).download_bits_per_sec = none ∧
      (bench_network st).upload_bits_per_sec = none ∧
      (bench_network st).ping_ms = none ∧
      (bench_network st).error.isSome = true)) := by
  refine ⟨rfl, ?_⟩
  match st with
  | none => right; simp [bench_network]
  | some (SpeedtestOutcome.success d u p) => left; simp [bench_network]
  | some (SpeedtestOutcome.failure e) => right; simp [bench_network]

/-- C7: the assembled memory_x_multiple is copy_bytes_per_sec divided by
1073741824 when the memory result carries a copy figure, and is None
exactly when it does not. -/
theorem c7_memory_x_multiple (c : ℚ) (ram : Option ℚ) :
    report_memory_x_multiple (some c) = some (c / 1073741824) ∧
    report_memory_x_multiple none = none ∧
    (report_memory_x_multiple ram = none ↔ ram = none) := by
  refine ⟨?_, rfl, ?_⟩
  · simp [report_memory_x_multiple, compute_memory_x_multiple]
    norm_num
  · match ram with
    | none => simp [report_memory_x_multiple]
    | some x => simp [report_memory_x_multiple]

/-- C1 counterexample: with no explicit size and the total RAM unknown,
bench_ram substitutes the 256 MiB cap for the missing total and then
takes 10 percent of it, so the chosen size is the 64 MiB lower clamp,
not the claimed 256 MiB default. -/
theorem c1_counterexample :
    bench_ram_target none none = 67108864 ∧
    bench_ram_target none none ≠ 268435456 := by
  have h : bench_ram_target none none = 67108864 := by
    simp only [bench_ram_target]
    norm_num [pyInt]
  refine ⟨h, ?_⟩
  rw [h]
  norm_num

/-- C1 (amended): with no explicit target size the chosen buffer size is
int(10 percent of total RAM) clamped to [64 MiB, 256 MiB], so it always
satisfies 64 MiB <= size <= 256 MiB; when total RAM is unknown the code
clamps 10 percent of the 256 MiB cap, yielding 64 MiB (not 256 MiB); an
explicit target is used verbatim. -/
lemma bench_ram_target_auto_bounds (total : ℤ) (h : 0 < total) :
    64 * 1024 * 1024 ≤ bench_ram_target (some total) none ∧
    bench_ram_target (some total) none ≤ 256 * 1024 * 1024 := by
  have hne : total ≠ 0 := ne_of_gt h
  constructor
  · simp only [bench_ram_target, hne, if_false]
    exact le_max_left _ _
  · simp only [bench_ram_target, hne, if_false]
    exact max_le (by norm_num) (min_le_left _ _)

theorem c1_buffer_sizing (total t : ℤ) (tm : Option ℤ) (h : 0 < total) :
    bench_ram_target (some total) none =
      max (64 * 1024 * 1024)
        (min (256 * 1024 * 1024) (pyInt ((total : ℚ) * (10 / 100)))) ∧
    64 * 1024 * 1024 ≤ bench_ram_target (some total) none ∧
    bench_ram_target (some total) none ≤ 256 * 1024 * 1024 ∧
    bench_ram_target none none = 64 * 1024 * 1024 ∧
    bench_ram_target tm (some t) = t := by
  have hne : total ≠ 0 := ne_of_gt h
  have hauto : bench_ram_target none none = 64 * 1024 * 1024 := by
    simp only [bench_ram_target]
    norm_num [pyInt]
  refine ⟨?_, (bench_ram_target_auto_bounds total h).1,
    (bench_ram_target_auto_bounds total h).2, hauto, rfl⟩
  simp [bench_ram_target, hne]

/-- C1 witness: buffer sizing evaluated at a 8 GiB total (10 percent,
858993459 bytes, clamps down to 256 MiB) with an explicit override of
1 MiB used verbatim. -/
theorem c1_witness :
    (0 : ℤ) < 8589934592 ∧
    (bench_ram_target (some 8589934592) none =
       max (64 * 1024 * 1024)
         (min (256 * 1024 * 1024) (pyInt ((8589934592 : ℚ) * (10 / 100)))) ∧
     64 * 1024 * 1024 ≤ bench_ram_target (some 8589934592) none ∧
     bench_ram_target (some 8589934592) none ≤ 256 * 1024 * 1024 ∧
     bench_ram_target none none = 64 * 1024 * 1024 ∧
     bench_ram_target (some 8589934592) (some 1048576) = 1048576) :=
  ⟨by decide, c1_buffer_sizing 8589934592 1048576 (some 8589934592) (by decide)⟩

/-- C2 counterexample: the vectorized path has no floor on the elapsed
time; with a minimum observed copy time of 0 its divisor is exactly 0 and
its reported figure differs from the floored formula the claim states
(the byte-wise fallback, by contrast, floors the same input to 1e-9). -/
theorem c2_counterexample :
    numpy_min_time 0 [] = 0 ∧
    (bench_ram_numpy_result 1 0 [] 0 [] 0 []).1 ≠
      1 / max (pymin 0 []) (1 / 1000000000) ∧
    fallback_min_time 0 [] = 1 / 1000000000 := by
  refine ⟨rfl, ?_, by norm_num [fallback_min_time, pymin]⟩
  intro h
  simp [bench_ram_numpy_result, numpy_throughput, numpy_min_time, pymin,
    fallback_min_time] at h

/-- C2 (amended): the byte-wise fallback path reports each of the copy,
write and read throughputs as bufferSize divided by max(minTime, 1e-9),
whose divisor is always positive, so that division is never by zero; the
vectorized path divides by the raw minimum time with no floor, agreeing
with the floored formula only when every minimum time is at least 1e-9. -/
theorem c2_throughput_floor (size ct wt rt : ℚ)
    (cts wts rts : List ℚ)
    (hc : 1 / 1000000000 ≤ pymin ct cts)
    (hw : 1 / 1000000000 ≤ pymin wt wts)
    (hr : 1 / 1000000000 ≤ pymin rt rts) :
    bench_ram_fallback_result size ct cts wt wts rt rts =
      (size / max (pymin ct cts) (1 / 1000000000),
       size / max (pymin wt wts) (1 / 1000000000),
       size / max (pymin rt rts) (1 / 1000000000)) ∧
    0 < fallback_min_time ct cts ∧
    0 < fallback_min_time wt wts ∧
    0 < fallback_min_time rt rts ∧
    bench_ram_numpy_result size ct cts wt wts rt rts =
      (size / pymin ct cts, size / pymin wt wts, size / pymin rt rts) ∧
    bench_ram_numpy_result size ct cts wt wts rt rts =
      (size / max (pymin ct cts) (1 / 1000000000),
       size / max (pymin wt wts) (1 / 1000000000),
       size / max (pymin rt rts) (1 / 1000000000)) := by
  have hpos : ∀ t : ℚ, ∀ ts : List ℚ, 0 < fallback_min_time t ts := by
    intro t ts
    exact lt_of_lt_of_le (by norm_num) (le_max_right _ _)
  refine ⟨rfl, hpos _ _, hpos _ _, hpos _ _, rfl, ?_⟩
  rw [max_eq_left hc, max_eq_left hw, max_eq_left hr]
  rfl

/-- C2 witness: the floor arithmetic at buffer size 100 with minimum
times of 1/2, 1/4 and 1/5 seconds. -/
theorem c2_witness :
    (1 / 1000000000 : ℚ) ≤ pymin (1 / 2) [] ∧
    (1 / 1000000000 : ℚ) ≤ pymin (1 / 4) [] ∧
    (1 / 1000000000 : ℚ) ≤ pymin (1 / 5) [] ∧
    (bench_ram_fallback_result 100 (1 / 2) [] (1 / 4) [] (1 / 5) [] =
       (100 / max (pymin (1 / 2) []) (1 / 1000000000),
        100 / max (pymin (1 / 4) []) (1 / 1000000000),
        100 / max (pymin (1 / 5) []) (1 / 1000000000)) ∧
     0 < fallback_min_time (1 / 2) [] ∧
     0 < fallback_min_time (1 / 4) [] ∧
     0 < fallback_min_time (1 / 5) [] ∧
     bench_ram_numpy_result 100 (1 / 2) [] (1 / 4) [] (1 / 5) [] =
       (100 / pymin (1 / 2) [], 100 / pymin (1 / 4) [], 100 / pymin (1 / 5) []) ∧
     bench_ram_numpy_result 100 (1 / 2) [] (1 / 4) [] (1 / 5) [] =
       (100 / max (pymin (1 / 2) []) (1 / 1000000000),
        100 / max (pymin (1 / 4) []) (1 / 1000000000),
        100 / max (pymin (1 / 5) []) (1 / 1000000000))) :=
  ⟨by norm_num [pymin], by norm_num [pymin], by norm_num [pymin],
   c2_throughput_floor 100 (1 / 2) (1 / 4) (1 / 5) [] [] []
     (by norm_num [pymin]) (by norm_num [pymin]) (by norm_num [pymin])⟩

/-- The three discrete count fields of the configuration returned by
scaled_config, in terms of the baseline entries. -/
lemma scaled_config_counts (h0 : Heap) (base : ℕ) (hw perf : ℚ) (g c cc : ℤ)
    (hlt : base < h0.nextAddr)
    (hg : hread h0 base "gpus" = some (PyVal.vint g))
    (hc : hread h0 base "cpus" = some (PyVal.vint c))
    (hcc : hread h0 base "cpu_cores" = some (PyVal.vint cc)) :
    hread (scaled_config h0 base hw perf).1 (scaled_config h0 base hw perf).2 "gpus" =
      some (PyVal.vint (max 1 (pyRound ((g : ℚ) * (1 - hw))))) ∧
    hread (scaled_config h0 base hw perf).1 (scaled_config h0 base hw perf).2 "cpus" =
      some (PyVal.vint (max 1 (pyRound ((c : ℚ) * (1 - hw))))) ∧
    hread (scaled_config h0 base hw perf).1 (scaled_config h0 base hw perf).2 "cpu_cores" =
      some (PyVal.vint (max 1 (pyRound ((cc : ℚ) * (1 - hw))))) := by
  have hb : base ≠ h0.nextAddr := Nat.ne_of_lt hlt
  refine ⟨?_, ?_, ?_⟩
  · simp only [scaled_config, hset, halloc, hread, readQ, asQ] at *
    simp only [hb, if_false, if_true]
    rw [dictLookup_dictSet_ne _ _ _ _ (by decide)]
    rw [dictLookup_dictSet_ne _ _ _ _ (by decide)]
    rw [dictLookup_dictSet_ne _ _ _ _ (by decide)]
    rw [dictLookup_dictSet_ne _ _ _ _ (by decide)]
    rw [dictLookup_dictSet_ne _ _ _ _ (by decide)]
    rw [dictLookup_dictSet_ne _ _ _ _ (by decide)]
    rw [dictLookup_dictSet_ne _ _ _ _ (by decide)]
    rw [dictLookup_dictSet_ne _ _ _ _ (by decide)]
    rw [dictLookup_dictSet_ne _ _ _ _ (by decide)]
    rw [dictLookup_dictSet_ne _ _ _ _ (by decide)]
    rw [dictLookup_dictSet_ne _ _ _ _ (by decide)]
    rw [dictLookup_dictSet_ne _ _ _ _ (by decide)]
    rw [dictLookup_dictSet_ne _ _ _ _ (by decide)]
    rw [dictLookup_dictSet_ne _ _ _ _ (by decide)]
    rw [dictLookup_dictSet_ne _ _ _ _ (by decide)]
    rw [dictLookup_dictSet_ne _ _ _ _ (by decide)]
    rw [dictLookup_dictSet_ne _ _ _ _ (by decide)]
    rw [dictLookup_dictSet_self]
    simp [hb, hg]
  · simp only [scaled_config, hset, halloc, hread, readQ, asQ] at *
    simp only [hb, if_false, if_true]
    rw [dictLookup_dictSet_ne _ _ _ _ (by decide)]
    rw [dictLookup_dictSet_ne _ _ _ _ (by decide)]
    rw [dictLookup_dictSet_ne _ _ _ _ (by decide)]
    rw [dictLookup_dictSet_ne _ _ _ _ (by decide)]
    rw [dictLookup_dictSet_ne _ _ _ _ (by decide)]
    rw [dictLookup_dictSet_ne _ _ _ _ (by decide)]
    rw [dictLookup_dictSet_ne _ _ _ _ (by decide)]
    rw [dictLookup_dictSet_ne _ _ _ _ (by decide)]
    rw [dictLookup_dictSet_ne _ _ _ _ (by decide)]
    rw [dictLookup_dictSet_ne _ _ _ _ (by decide)]
    rw [dictLookup_dictSet_ne _ _ _ _ (by decide)]
    rw [dictLookup_dictSet_ne _ _ _ _ (by decide)]
    rw [dictLookup_dictSet_ne _ _ _ _ (by decide)]
    rw [dictLookup_dictSet_ne _ _ _ _ (by decide)]
    rw [dictLookup_dictSet_ne _ _ _ _ (by decide)]
    rw [dictLookup_dictSet_ne _ _ _ _ (by decide)]
    rw [dictLookup_dictSet_self]
    simp [hb, hc]
  · simp only [scaled_config, hset, halloc, hread, readQ, asQ] at *
    simp only [hb, if_false, if_true]
    rw [dictLookup_dictSet_ne _ _ _ _ (by decide)]
    rw [dictLookup_dictSet_ne _ _ _ _ (by decide)]
    rw [dictLookup_dictSet_ne _ _ _ _ (by decide)]
    rw [dictLookup_dictSet_ne _ _ _ _ (by decide)]
    rw [dictLookup_dictSet_ne _ _ _ _ (by decide)]
    rw [dictLookup_dictSet_ne _ _ _ _ (by decide)]
    rw [dictLookup_dictSet_ne _ _ _ _ (by decide)]
    rw [dictLookup_dictSet_ne _ _ _ _ (by decide)]
    rw [dictLookup_dictSet_ne _ _ _ _ (by decide)]
    rw [dictLookup_dictSet_ne _ _ _ _ (by decide)]
    rw [dictLookup_dictSet_ne _ _ _ _ (by decide)]
    rw [dictLookup_dictSet_ne _ _ _ _ (by decide)]
    rw [dictLookup_dictSet_ne _ _ _ _ (by decide)]
    rw [dictLookup_dictSet_ne _ _ _ _ (by decide)]
    rw [dictLookup_dictSet_ne _ _ _ _ (by decide)]
    rw [dictLookup_dictSet_self]
    simp [hb, hcc]

/-- C3: every discrete count field of the scaled configuration equals
round(base * (1 - hardwareScale)) floored at 1 (with Python banker
rounding), for every baseline profile and clamped hardware scale; in
particular, at hardwareScale 0.69 and perfScale 0.27 the baseline count
72 scales to exactly 22 and the baseline count 36 to exactly 11. -/
theorem c3_discrete_count_scaling (h0 : Heap) (base : ℕ) (hw perf : ℚ)
    (g c cc : ℤ)
    (hlt : base < h0.nextAddr)
    (_hw1 : 67 / 100 ≤ hw) (_hw2 : hw ≤ 71 / 100)
    (hg : hread h0 base "gpus" = some (PyVal.vint g))
    (hc : hread h0 base "cpus" = some (PyVal.vint c))
    (hcc : hread h0 base "cpu_cores" = some (PyVal.vint cc)) :
    hread (scaled_config h0 base hw perf).1 (scaled_config h0 base hw perf).2 "gpus" =
      some (PyVal.vint (max 1 (pyRound ((g : ℚ) * (1 - hw))))) ∧
    hread (scaled_config h0 base hw perf).1 (scaled_config h0 base hw perf).2 "cpus" =
      some (PyVal.vint (max 1 (pyRound ((c : ℚ) * (1 - hw))))) ∧
    hread (scaled_config h0 base hw perf).1 (scaled_config h0 base hw perf).2 "cpu_cores" =
      some (PyVal.vint (max 1 (pyRound ((cc : ℚ) * (1 - hw))))) ∧
    hread (scaled_config mainHeap 0 (69 / 100) (27 / 100)).1
      (scaled_config mainHeap 0 (69 / 100) (27 / 100)).2 "gpus" =
      some (PyVal.vint 22) ∧
    hread (scaled_config mainHeap 0 (69 / 100) (27 / 100)).1
      (scaled_config mainHeap 0 (69 / 100) (27 / 100)).2 "cpus" =
      some (PyVal.vint 11) := by
  obtain ⟨e1, e2, e3⟩ := scaled_config_counts h0 base hw perf g c cc hlt hg hc hcc
  obtain ⟨f1, f2, _⟩ := scaled_config_counts mainHeap 0 (69 / 100) (27 / 100)
    72 36 3500 (by norm_num [mainHeap]) rfl rfl rfl
  refine ⟨e1, e2, e3, ?_, ?_⟩
  · rw [f1]
    norm_num [pyRound]
  · rw [f2]
    norm_num [pyRound]

/-- C3 witness: the count-scaling law applied to the concrete
theoretical_baseline heap at the default scale factors. -/
theorem c3_witness :
    (0 : ℕ) < mainHeap.nextAddr ∧
    (67 / 100 : ℚ) ≤ 69 / 100 ∧ (69 / 100 : ℚ) ≤ 71 / 100 ∧
    hread mainHeap 0 "gpus" = some (PyVal.vint 72) ∧
    hread mainHeap 0 "cpus" = some (PyVal.vint 36) ∧
    hread mainHeap 0 "cpu_cores" = some (PyVal.vint 3500) ∧
    (hread (scaled_config mainHeap 0 (69 / 100) (27 / 100)).1
       (scaled_config mainHeap 0 (69 / 100) (27 / 100)).2 "gpus" =
       some (PyVal.vint (max 1 (pyRound ((72 : ℚ) * (1 - 69 / 100))))) ∧
     hread (scaled_config mainHeap 0 (69 / 100) (27 / 100)).1
       (scaled_config mainHeap 0 (69 / 100) (27 / 100)).2 "cpus" =
       some (PyVal.vint (max 1 (pyRound ((36 : ℚ) * (1 - 69 / 100))))) ∧
     hread (scaled_config mainHeap 0 (69 / 100) (27 / 100)).1
       (scaled_config mainHeap 0 (69 / 100) (27 / 100)).2 "cpu_cores" =
       some (PyVal.vint (max 1 (pyRound ((3500 : ℚ) * (1 - 69 / 100))))) ∧
     hread (scaled_config mainHeap 0 (69 / 100) (27 / 100)).1
       (scaled_config mainHeap 0 (69 / 100) (27 / 100)).2 "gpus" =
       some (PyVal.vint 22) ∧
     hread (scaled_config mainHeap 0 (69 / 100) (27 / 100)).1
       (scaled_config mainHeap 0 (69 / 100) (27 / 100)).2 "cpus" =
       some (PyVal.vint 11)) :=
  ⟨by norm_num [mainHeap], by norm_num, by norm_num, rfl, rfl, rfl,
   c3_discrete_count_scaling mainHeap 0 (69 / 100) (27 / 100) 72 36 3500
     (by norm_num [mainHeap]) (by norm_num) (by norm_num) rfl rfl rfl⟩

/-- scaled_config never writes through the base address: every mutation
targets the freshly allocated copy. -/
lemma scaled_config_frame (h0 : Heap) (base : ℕ) (hw pf : ℚ)
    (hlt : base < h0.nextAddr) :
    (scaled_config h0 base hw pf).1.store base = h0.store base := by
  have hb : base ≠ h0.nextAddr := Nat.ne_of_lt hlt
  simp [scaled_config, hset, halloc, hb]

/-- The port entry of the scaled profile is the baseline port value. -/
lemma scaled_config_port (h0 : Heap) (base : ℕ) (hw pf : ℚ) (p : PyVal)
    (hlt : base < h0.nextAddr)
    (hport : hread h0 base "port" = some p) :
    hread (scaled_config h0 base hw pf).1 (scaled_config h0 base hw pf).2 "port" =
      some p := by
  have hb : base ≠ h0.nextAddr := Nat.ne_of_lt hlt
  simp only [scaled_config, hset, halloc, hread, readQ] at *
  simp only [hb, if_false, if_true]
  rw [dictLookup_dictSet_ne _ _ _ _ (by decide)]
  rw [dictLookup_dictSet_self]
  simp [hb, hport]

/-- C10: scaled_config mutates only the copy it allocates, so the
baseline dict object is unchanged by deriving the scaled configuration
(in particular the report field holding the fixed constant profile is
still exactly that constant), and the scaled profile carries the
baseline port value unchanged. -/
theorem c10_baseline_unmodified (h0 : Heap) (base : ℕ) (hw pf : ℚ) (p : PyVal)
    (hlt : base < h0.nextAddr)
    (hport : hread h0 base "port" = some p) :
    (scaled_config h0 base hw pf).1.store base = h0.store base ∧
    hread (scaled_config h0 base hw pf).1 (scaled_config h0 base hw pf).2 "port" =
      some p ∧
    (scaled_config mainHeap 0 (69 / 100) (27 / 100)).1.store 0 =
      theoretical_baseline ∧
    hread (scaled_config mainHeap 0 (69 / 100) (27 / 100)).1
      (scaled_config mainHeap 0 (69 / 100) (27 / 100)).2 "port" =
      some (PyVal.vstr "PCIe 7.0") :=
  ⟨scaled_config_frame h0 base hw pf hlt,
   scaled_config_port h0 base hw pf p hlt hport,
   scaled_config_frame mainHeap 0 (69 / 100) (27 / 100) (by norm_num [mainHeap]),
   scaled_config_port mainHeap 0 (69 / 100) (27 / 100) (PyVal.vstr "PCIe 7.0")
     (by norm_num [mainHeap]) rfl⟩

/-- C10 witness: the frame property at the concrete main() heap and the
default scale factors. -/
theorem c10_witness :
    (0 : ℕ) < mainHeap.nextAddr ∧
    hread mainHeap 0 "port" = some (PyVal.vstr "PCIe 7.0") ∧
    ((scaled_config mainHeap 0 (69 / 100) (27 / 100)).1.store 0 =
       mainHeap.store 0 ∧
     hread (scaled_config mainHeap 0 (69 / 100) (27 / 100)).1
       (scaled_config mainHeap 0 (69 / 100) (27 / 100)).2 "port" =
       some (PyVal.vstr "PCIe 7.0") ∧
     (scaled_config mainHeap 0 (69 / 100) (27 / 100)).1.store 0 =
       theoretical_baseline ∧
     hread (scaled_config mainHeap 0 (69 / 100) (27 / 100)).1
       (scaled_config mainHeap 0 (69 / 100) (27 / 100)).2 "port" =
       some (PyVal.vstr "PCIe 7.0")) :=
  ⟨by norm_num [mainHeap], rfl,
   c10_baseline_unmodified mainHeap 0 (69 / 100) (27 / 100)
     (PyVal.vstr "PCIe 7.0") (by norm_num [mainHeap]) rfl⟩

/-- Invariant of the format_bytes_per_sec while loop: starting at index i
the loop ends at an index between i and 4, stops only when the mantissa
has dropped below 1024 or the last unit is reached, and the final
mantissa times 1024 to the number of steps taken recovers the input. -/
lemma format_loop_invariant (fuel : ℕ) :
    ∀ bps : ℚ, ∀ i : ℕ, 4 - i ≤ fuel → i ≤ 4 →
      i ≤ (format_loop bps i).2 ∧
      (format_loop bps i).2 ≤ 4 ∧
      ((format_loop bps i).1 < 1024 ∨ (format_loop bps i).2 = 4) ∧
      (format_loop bps i).1 * 1024 ^ ((format_loop bps i).2 - i) = bps := by
  induction fuel with
  | zero =>
    intro bps i hf hi
    have hi4 : i = 4 := by omega
    rw [format_loop]
    have hcond : ¬ (1024 ≤ bps ∧ i < 4) := by
      rintro ⟨-, hlt4⟩
      omega
    rw [dif_neg hcond]
    subst hi4
    simp
  | succ n ih =>
    intro bps i hf hi
    rw [format_loop]
    by_cases hcond : 1024 ≤ bps ∧ i < 4
    · rw [dif_pos hcond]
      obtain ⟨h1, h2, h3, h4⟩ := ih (bps / 1024) (i + 1) (by omega) (by omega)
      refine ⟨by omega, h2, h3, ?_⟩
      have hstep : (format_loop (bps / 1024) (i + 1)).2 - i =
          ((format_loop (bps / 1024) (i + 1)).2 - (i + 1)) + 1 := by omega
      rw [hstep, pow_succ, ← mul_assoc, h4]
      exact div_mul_cancel₀ bps (by norm_num)
    · rw [dif_neg hcond]
      push_neg at hcond
      refine ⟨le_refl i, hi, ?_, by simp⟩
      by_cases hb : 1024 ≤ bps
      · right
        have := hcond hb
        omega
      · left
        exact lt_of_not_le hb

/-- C9: for every non-negative byte rate the formatter divides the rate
down by 1024 per unit step, stopping as soon as the mantissa is below
1024 or the unit index reaches TB/s (index 4, never beyond), and renders
the mantissa bps / 1024 to the power of the chosen index to two decimals
followed by the chosen unit; the function is total by construction. -/
theorem c9_unit_formatter (bps : ℚ) (_h : 0 ≤ bps) :
    (format_loop bps 0).2 ≤ 4 ∧
    ((format_loop bps 0).1 < 1024 ∨ (format_loop bps 0).2 = 4) ∧
    (format_loop bps 0).1 = bps / 1024 ^ (format_loop bps 0).2 ∧
    format_bytes_per_sec bps =
      fmtTwoDec (bps / 1024 ^ (format_loop bps 0).2) ++ " " ++
        units.getD (format_loop bps 0).2 "" := by
  obtain ⟨h1, h2, h3, h4⟩ := format_loop_invariant 4 bps 0 (by omega) (by omega)
  have hpow : (1024 : ℚ) ^ (format_loop bps 0).2 ≠ 0 := pow_ne_zero _ (by norm_num)
  have hm : (format_loop bps 0).1 = bps / 1024 ^ (format_loop bps 0).2 := by
    rw [eq_div_iff hpow]
    simpa using h4
  refine ⟨h2, h3, hm, ?_⟩
  simp only [format_bytes_per_sec]
  rw [hm]

/-- C9 witness: formatting 1500000 bytes per second lands on the MB/s
unit with mantissa 1500000 / 1048576. -/
theorem c9_witness :
    (0 : ℚ) ≤ 1500000 ∧
    ((format_loop 1500000 0).2 ≤ 4 ∧
     ((format_loop 1500000 0).1 < 1024 ∨ (format_loop 1500000 0).2 = 4) ∧
     (format_loop 1500000 0).1 = 1500000 / 1024 ^ (format_loop 1500000 0).2 ∧
     format_bytes_per_sec 1500000 =
       fmtTwoDec (1500000 / 1024 ^ (format_loop 1500000 0).2) ++ " " ++
         units.getD (format_loop 1500000 0).2 "") :=
  ⟨by norm_num, c9_unit_formatter 1500000 (by norm_num)⟩

/-- Case analysis of the --ram-bytes handling: the parse either succeeds
without a warning or fails with the override left None; a warning is
printed in every failing case except the falsy empty string. -/
lemma parse_ram_bytes_cases (rb : String) (hne : rb ≠ "") :
    (parse_ram_bytes (some rb) = (none, true)) ∨
    (∃ n : ℤ, parse_ram_bytes (some rb) = (some n, false)) := by
  simp only [parse_ram_bytes, if_neg hne]
  by_cases hg : endsWithChar (pyUpper (pyStrip rb.toList)) 'G'
  · simp only [hg, if_true]
    match pyFloatOfChars (pyUpper (pyStrip rb.toList)).dropLast with
    | some q => right; exact ⟨_, rfl⟩
    | none => left; rfl
  · simp only [hg, Bool.false_eq_true, if_false]
    by_cases hm : endsWithChar (pyUpper (pyStrip rb.toList)) 'M'
    · simp only [hm, if_true]
      match pyFloatOfChars (pyUpper (pyStrip rb.toList)).dropLast with
      | some q => right; exact ⟨_, rfl⟩
      | none => left; rfl
    · simp only [hm, Bool.false_eq_true, if_false]
      by_cases hk : endsWithChar (pyUpper (pyStrip rb.toList)) 'K'
      · simp only [hk, if_true]
        match pyFloatOfChars (pyUpper (pyStrip rb.toList)).dropLast with
        | some q => right; exact ⟨_, rfl⟩
        | none => left; rfl
      · simp only [hk, Bool.false_eq_true, if_false]
        match pyIntOfString (String.mk (pyUpper (pyStrip rb.toList))) with
        | some n => right; exact ⟨_, rfl⟩
        | none => left; rfl

/-- C8 counterexample: the empty string is not a valid size, yet main()
skips the whole parse block because the empty string is falsy, so no
warning is printed (the override is still None and the run proceeds with
automatic sizing). -/
theorem c8_counterexample :
    parse_ram_bytes (some "") = (none, false) ∧
    pyIntOfString "" = none := by
  constructor
  · rfl
  · rfl

/-- C8 (amended): for every non-empty --ram-bytes value that fails to
parse as a plain integer or K/M/G-suffixed size, a warning is printed and
the override stays None, so bench_ram falls back to automatic sizing
(always yielding a size in [64 MiB, 256 MiB]); the empty string falls
back silently without a warning; the handling is a total function, so bad
size input is never fatal. -/
theorem c8_bad_size_input (rb : String) (total : ℤ)
    (hne : rb ≠ "")
    (hfail : (parse_ram_bytes (some rb)).1 = none)
    (htot : 0 < total) :
    (parse_ram_bytes (some rb)).2 = true ∧
    64 * 1024 * 1024 ≤ bench_ram_target (some total) (parse_ram_bytes (some rb)).1 ∧
    bench_ram_target (some total) (parse_ram_bytes (some rb)).1 ≤ 256 * 1024 * 1024 := by
  obtain hcase | ⟨n, hcase⟩ := parse_ram_bytes_cases rb hne
  · rw [hcase] at hfail ⊢
    obtain ⟨hlo, hhi⟩ := bench_ram_target_auto_bounds total htot
    exact ⟨rfl, hlo, hhi⟩
  · rw [hcase] at hfail
    simp at hfail

/-- C8 witness: the invalid size string abc warns and falls back to a
clamped automatic size on a 4 GiB machine. -/
theorem c8_witness :
    ("abc" : String) ≠ "" ∧
    (parse_ram_bytes (some "abc")).1 = none ∧
    (0 : ℤ) < 4294967296 ∧
    ((parse_ram_bytes (some "abc")).2 = true ∧
     64 * 1024 * 1024 ≤
       bench_ram_target (some 4294967296) (parse_ram_bytes (some "abc")).1 ∧
     bench_ram_target (some 4294967296) (parse_ram_bytes (some "abc")).1 ≤
       256 * 1024 * 1024) :=
  ⟨by decide, by decide, by decide,
   c8_bad_size_input "abc" 4294967296 (by decide) (by decide) (by decide)⟩
